import Mathlib

/-!
Verification of the novorendertest viewer core against its design document.

The development shallowly embeds the orchestration layer of the repository:

* `isolateObjects` — the highlight-index update of `src/src/main.ts`
  (function `isolateObjects`, lines 94–103), modelled both as a state
  transformer on the `objectHighlightIndices` array and as the trace of
  calls it makes against the highlight publishing interface;
* `PositionButton` / `onMouseDown` — the camera bookmark button of
  `src/unnamed/part_000` (class `PositionButton`);
* `runSubmit` — one execution of the search-form submit handler of
  `src/src/main.ts` (lines 42–65), without interleaving;
* `SearchWorld` / `step` — a small-step cooperative-interleaving model of
  two submit-handler executions, used for the search-supersession claims;
* `renderIteration` — the event trace of one iteration of the main render
  loop of `src/src/main.ts` (lines 67–85).

JS `Uint8Array` writes out of range are silently dropped; `List.set` has the
same out-of-range behaviour, so the highlight array is modelled as a
`List Nat` of group numbers indexed by object id.
-/

namespace Novorender

/-- The scene's `objectHighlighter.objectHighlightIndices` array: entry `i`
is the highlight group number of the object with id `i`. -/
abbrev HighlightIndex := List Nat

/-- The write `objectHighlightIndices.fill(v)`: every entry becomes `v`. -/
def fillIndex (v : Nat) (arr : HighlightIndex) : HighlightIndex :=
  arr.map fun _ => v

/-- The write `objectHighlightIndices[id] = v`; a typed-array store with an
out-of-range index is a no-op, exactly as `List.set`. -/
def writeIndex (arr : HighlightIndex) (id v : Nat) : HighlightIndex :=
  arr.set id v

/-- Calls made against the highlight publishing interface (`fill`, single
entry writes, and `commit`). -/
inductive HighlightEvent
  | fill (v : Nat)
  | write (id v : Nat)
  | commit
deriving DecidableEq, Repr

/-- State effect of `isolateObjects` of `src/src/main.ts` on the highlight
array: empty id list fills with group 0; otherwise fill with group 255, then
set each listed id back to group 0 (in list order, as `ids.forEach`). -/
def isolateObjects (ids : List Nat) (arr : HighlightIndex) : HighlightIndex :=
  if ids.length = 0 then fillIndex 0 arr
  else ids.foldl (fun a id => writeIndex a id 0) (fillIndex 255 arr)

/-- Trace of the calls one `isolateObjects` run makes against the highlight
publishing interface, in program order. -/
def isolateTrace (ids : List Nat) : List HighlightEvent :=
  if ids.length = 0 then [HighlightEvent.fill 0, HighlightEvent.commit]
  else HighlightEvent.fill 255 ::
    (ids.map fun id => HighlightEvent.write id 0) ++ [HighlightEvent.commit]

lemma length_foldl_write (ids : List Nat) (l : HighlightIndex) :
    (ids.foldl (fun a id => writeIndex a id 0) l).length = l.length := by
  induction ids generalizing l with
  | nil => rfl
  | cons id rest ih =>
      simp only [List.foldl_cons]
      rw [ih]
      simp [writeIndex]

lemma getElem?_fillIndex (v : Nat) (arr : HighlightIndex) (i : Nat) :
    (fillIndex v arr)[i]? = if i < arr.length then some v else none := by
  unfold fillIndex
  by_cases hlt : i < arr.length
  · rw [List.getElem?_map, List.getElem?_eq_getElem hlt]
    simp [hlt]
  · rw [List.getElem?_map, List.getElem?_eq_none (Nat.le_of_not_lt hlt)]
    simp [hlt]

lemma getElem?_foldl_write (ids : List Nat) (l : HighlightIndex) (i : Nat) :
    (ids.foldl (fun a id => writeIndex a id 0) l)[i]? =
      if i ∈ ids ∧ i < l.length then some 0 else l[i]? := by
  induction ids generalizing l with
  | nil => simp
  | cons id rest ih =>
      simp only [List.foldl_cons]
      rw [ih]
      simp only [writeIndex, List.length_set, List.getElem?_set, List.mem_cons]
      by_cases hlt : i < l.length
      · by_cases hmem : i ∈ rest
        · simp [hmem, hlt]
        · by_cases heq : id = i
          · simp [hmem, hlt, heq]
          · have h2 : ¬ i = id := fun h => heq h.symm
            simp [hmem, hlt, heq, h2]
      · have hnone : l[i]? = none := List.getElem?_eq_none (Nat.le_of_not_lt hlt)
        by_cases heq : id = i
        · simp [hlt, heq, hnone]
        · have h2 : ¬ i = id := fun h => heq h.symm
          simp [hlt, heq, h2, hnone]

lemma isolateObjects_length (ids : List Nat) (arr : HighlightIndex) :
    (isolateObjects ids arr).length = arr.length := by
  unfold isolateObjects
  split
  · simp [fillIndex]
  · rw [length_foldl_write]
    simp [fillIndex]

lemma isolateObjects_getElem? (ids : List Nat) (arr : HighlightIndex) (i : Nat) :
    (isolateObjects ids arr)[i]? =
      if i < arr.length then
        some (if ids = [] then 0 else if i ∈ ids then 0 else 255)
      else none := by
  rcases ids with _ | ⟨id, rest⟩
  · have h1 : isolateObjects [] arr = fillIndex 0 arr := rfl
    rw [h1, getElem?_fillIndex]
    by_cases hlt : i < arr.length <;> simp [hlt]
  · have h1 : isolateObjects (id :: rest) arr =
        (id :: rest).foldl (fun a id => writeIndex a id 0) (fillIndex 255 arr) := rfl
    rw [h1, getElem?_foldl_write]
    have hl : (fillIndex 255 arr).length = arr.length := by simp [fillIndex]
    rw [hl, getElem?_fillIndex]
    have hcons : ¬ (id :: rest) = [] := by simp
    by_cases hlt : i < arr.length <;> by_cases hmem : i ∈ id :: rest <;>
      simp [hlt, hmem, hcons]

/-- Claim C3: after `isolate(ids)`, every entry is group 0 when `ids` is
empty; otherwise entries whose id is in `ids` are group 0 and all others are
group 255; and the trace ends in exactly one `commit`, after all writes. -/
theorem isolate_highlight_semantics (ids : List Nat) (arr : HighlightIndex) :
    (∀ i v, (isolateObjects ids arr)[i]? = some v →
        v = if ids = [] then 0 else if i ∈ ids then 0 else 255)
    ∧ ∃ pre, isolateTrace ids = pre ++ [HighlightEvent.commit]
        ∧ HighlightEvent.commit ∉ pre := by
  constructor
  · intro i v hv
    rw [isolateObjects_getElem?] at hv
    by_cases hlt : i < arr.length
    · rw [if_pos hlt] at hv
      exact (Option.some.injEq _ _ ▸ hv).symm
    · rw [if_neg hlt] at hv
      exact absurd hv (by simp)
  · unfold isolateTrace
    rcases ids with _ | ⟨id, rest⟩
    · exact ⟨[HighlightEvent.fill 0], by simp⟩
    · refine ⟨HighlightEvent.fill 255 ::
        ((id :: rest).map fun id => HighlightEvent.write id 0), by simp, ?_⟩
      simp [List.mem_map]

/-- Witness for C3 at a concrete input: `isolate([1])` over a three-entry
array leaves entry 1 at group 0. -/
theorem isolate_highlight_semantics_witness :
    (isolateObjects [1] [7, 7, 7])[1]? = some 0
    ∧ 0 = if ([1] : List Nat) = [] then 0 else if 1 ∈ [(1 : Nat)] then 0 else 255 :=
  ⟨by decide, (isolate_highlight_semantics [1] [7, 7, 7]).1 1 0 (by decide)⟩

/-- Claim C6: `isolate(S)` twice in a row leaves the highlight index exactly
as `isolate(S)` once, for every id list and every starting array. -/
theorem isolate_idempotent (ids : List Nat) (arr : HighlightIndex) :
    isolateObjects ids (isolateObjects ids arr) = isolateObjects ids arr := by
  apply List.ext_getElem?
  intro i
  rw [isolateObjects_getElem?, isolateObjects_getElem?, isolateObjects_length]

/-- Claim C10: every entry the isolate core ever leaves in the highlight
array is group 0 or group 255. -/
theorem isolate_groups_binary (ids : List Nat) (arr : HighlightIndex) :
    ∀ v ∈ isolateObjects ids arr, v = 0 ∨ v = 255 := by
  intro v hv
  obtain ⟨i, hi⟩ := List.getElem?_of_mem hv
  have := (isolate_highlight_semantics ids arr).1 i v hi
  subst this
  by_cases h0 : ids = [] <;> by_cases hm : i ∈ ids <;> simp [h0, hm]

/-- Witness for C10 at a concrete input: 255 occurs in `isolate([1])` over a
three-entry array and is one of the two allowed groups. -/
theorem isolate_groups_binary_witness :
    255 ∈ isolateObjects [1] [7, 7, 7] ∧ (255 = 0 ∨ 255 = 255) :=
  ⟨by decide, isolate_groups_binary [1] [7, 7, 7] 255 (by decide)⟩

/-- A gl-matrix `vec3`. The source stores JS numbers; the bookmark claims
only move values around unchanged, so the scalar type is taken as `ℚ`. -/
structure Vec3 where
  x : Rat
  y : Rat
  z : Rat
deriving DecidableEq, Repr

/-- A gl-matrix `quat`, components in array order `[x, y, z, w]`. -/
structure Quat where
  x : Rat
  y : Rat
  z : Rat
  w : Rat
deriving DecidableEq, Repr

/-- The camera's current pose, read from `camera.position` and
`camera.rotation` at event time. -/
structure CameraPose where
  position : Vec3
  rotation : Quat
deriving DecidableEq, Repr

/-- One call to `camera.controller.moveTo(position, rotation)`. -/
structure MoveToCall where
  position : Vec3
  rotation : Quat
deriving DecidableEq, Repr

/-- The mutable fields of one `PositionButton` instance
(`src/unnamed/part_000`): the stored position components and rotation. The
`camera` field of the class is the external camera, supplied to the event
handler as a `CameraPose` argument instead. -/
structure PositionButton where
  positionX : Rat
  positionY : Rat
  positionZ : Rat
  rotation : Quat
deriving DecidableEq, Repr

/-- The `PositionButton` constructor: positions 0 and rotation initialised to
the array `[0, 0, 0, 0]` — the zero quaternion, not the identity. -/
def PositionButton.init : PositionButton :=
  { positionX := 0, positionY := 0, positionZ := 0, rotation := ⟨0, 0, 0, 0⟩ }

/-- The fields of the mouse event the handler reads. -/
structure MouseEvent where
  shiftKey : Bool
  button : Nat
deriving DecidableEq, Repr

/-- The `onmousedown` handler installed by `PositionButton.generateButton`:
shift with the primary button copies the camera's pose into the button's
fields (`[...this.camera.rotation]` is a value copy); a plain primary press
calls `controller.moveTo` with the stored pose; any other button does
nothing. Returns the updated button state and the `moveTo` calls issued. -/
def onMouseDown (st : PositionButton) (cam : CameraPose) (e : MouseEvent) :
    PositionButton × List MoveToCall :=
  if e.shiftKey = true ∧ e.button = 0 then
    ({ positionX := cam.position.x, positionY := cam.position.y,
       positionZ := cam.position.z, rotation := cam.rotation }, [])
  else if e.button = 0 then
    (st, [{ position := ⟨st.positionX, st.positionY, st.positionZ⟩,
            rotation := st.rotation }])
  else
    (st, [])

/-- Claim C4 counterexample: a recall on a never-captured button issues
`moveTo` with rotation `(0,0,0,0)`, which is not the identity quaternion
`(0,0,0,1)` asserted by the claim. -/
theorem default_recall_counterexample :
    (onMouseDown PositionButton.init ⟨⟨5, 6, 7⟩, ⟨0, 0, 0, 1⟩⟩ ⟨false, 0⟩).2 =
      [⟨⟨0, 0, 0⟩, ⟨0, 0, 0, 0⟩⟩]
    ∧ Quat.mk 0 0 0 0 ≠ Quat.mk 0 0 0 1 := by
  refine ⟨rfl, ?_⟩
  intro h
  exact absurd (congrArg Quat.w h) (by norm_num)

/-- Claim C4 amended: a recall on a never-captured button issues exactly one
`moveTo`, with the zero position `(0,0,0)` and the zero quaternion
`(0,0,0,0)` (the constructor's `[0,0,0,0]`), whatever the camera's current
pose is. -/
theorem default_recall_zero_pose (cam : CameraPose) :
    (onMouseDown PositionButton.init cam ⟨false, 0⟩).2 =
      [⟨⟨0, 0, 0⟩, ⟨0, 0, 0, 0⟩⟩] := rfl

/-- Claim C5: capturing while the camera is at pose `P` and then recalling
issues exactly one `moveTo` across the two events, whose position and
rotation equal `P` exactly — whatever the button previously stored and
wherever the camera has moved meanwhile. -/
theorem capture_recall_roundtrip (st : PositionButton) (cam camLater : CameraPose) :
    (onMouseDown st cam ⟨true, 0⟩).2 ++
      (onMouseDown (onMouseDown st cam ⟨true, 0⟩).1 camLater ⟨false, 0⟩).2 =
      [⟨cam.position, cam.rotation⟩] := rfl

/-- Claim C9: per activation event the modifier condition selects exactly one
behaviour — shift with the primary button captures (stores the camera pose,
no `moveTo`), a plain primary press recalls (one `moveTo`, state unchanged),
and a non-primary button does neither. -/
theorem activation_mutually_exclusive (st : PositionButton) (cam : CameraPose)
    (e : MouseEvent) :
    (e.shiftKey = true ∧ e.button = 0 →
        onMouseDown st cam e =
          ({ positionX := cam.position.x, positionY := cam.position.y,
             positionZ := cam.position.z, rotation := cam.rotation }, []))
    ∧ (e.shiftKey = false ∧ e.button = 0 →
        onMouseDown st cam e =
          (st, [{ position := ⟨st.positionX, st.positionY, st.positionZ⟩,
                  rotation := st.rotation }]))
    ∧ (e.button ≠ 0 → onMouseDown st cam e = (st, [])) := by
  refine ⟨?_, ?_, ?_⟩
  · intro h
    simp [onMouseDown, h.1, h.2]
  · intro h
    simp [onMouseDown, h.1, h.2]
  · intro h
    simp [onMouseDown, h]

/-- Witness for C9 at concrete events: shift+primary captures, plain primary
recalls, and a secondary-button press does nothing. -/
theorem activation_mutually_exclusive_witness :
    onMouseDown PositionButton.init ⟨⟨1, 2, 3⟩, ⟨0, 0, 0, 1⟩⟩ ⟨true, 0⟩ =
      ({ positionX := 1, positionY := 2, positionZ := 3,
         rotation := ⟨0, 0, 0, 1⟩ }, [])
    ∧ onMouseDown PositionButton.init ⟨⟨1, 2, 3⟩, ⟨0, 0, 0, 1⟩⟩ ⟨false, 0⟩ =
      (PositionButton.init, [⟨⟨0, 0, 0⟩, ⟨0, 0, 0, 0⟩⟩])
    ∧ onMouseDown PositionButton.init ⟨⟨1, 2, 3⟩, ⟨0, 0, 0, 1⟩⟩ ⟨false, 2⟩ =
      (PositionButton.init, []) :=
  ⟨(activation_mutually_exclusive _ _ _).1 ⟨rfl, rfl⟩,
   (activation_mutually_exclusive _ _ _).2.1 ⟨rfl, rfl⟩,
   (activation_mutually_exclusive _ _ _).2.2 (by decide)⟩

/-- Calls one render-loop iteration makes against the engine view and the
display surface, in program order. -/
inductive LoopEvent
  | applySettings (width height : Nat)
  | render
  | transferFromImageBitmap
  | closeImage
deriving DecidableEq, Repr

/-- One iteration of the main render loop (`src/src/main.ts`, lines 67–85):
apply the canvas client size, render, then await `output.getImage()`;
`imagePresent` says whether it returned an image, `ctxPresent` whether
`canvas.getContext` produced a bitmap-renderer context at startup (the
`ctx?.` optional chaining). If an image is returned it is transferred and
then closed; otherwise the display is untouched. -/
def renderIteration (width height : Nat) (ctxPresent imagePresent : Bool) :
    List LoopEvent :=
  [LoopEvent.applySettings width height, LoopEvent.render] ++
    if imagePresent then
      (if ctxPresent then [LoopEvent.transferFromImageBitmap] else []) ++
        [LoopEvent.closeImage]
    else []

/-- Claim C7: with the display context present, an iteration that gets an
image transfers it and then closes it exactly once, immediately after the
transfer; an iteration with no image leaves the display untouched and ends
after the render call. -/
theorem render_image_lifecycle (width height : Nat) (img : Bool) :
    (img = true → renderIteration width height true img =
      [LoopEvent.applySettings width height, LoopEvent.render,
       LoopEvent.transferFromImageBitmap, LoopEvent.closeImage])
    ∧ (img = false → renderIteration width height true img =
      [LoopEvent.applySettings width height, LoopEvent.render]) := by
  constructor
  · intro h
    subst h
    rfl
  · intro h
    subst h
    rfl

/-- Witness for C7 at a concrete iteration: an 800×600 frame with an image
produces transfer-then-close; one without an image stops after render. -/
theorem render_image_lifecycle_witness :
    renderIteration 800 600 true true =
      [LoopEvent.applySettings 800 600, LoopEvent.render,
       LoopEvent.transferFromImageBitmap, LoopEvent.closeImage]
    ∧ renderIteration 800 600 true false =
      [LoopEvent.applySettings 800 600, LoopEvent.render] :=
  ⟨(render_image_lifecycle 800 600 true).1 rfl,
   (render_image_lifecycle 800 600 false).2 rfl⟩

/-- What the `scene.search` async iterator does in one handler run, as seen
by the consuming `for await` loop: either it yields a finite list of match
ids and completes, or it yields some ids and then rejects with a
non-cancellation error. -/
inductive StreamBehavior
  | completes (ids : List Nat)
  | failsAfter (ids : List Nat)
deriving DecidableEq, Repr

/-- The handler-visible mutable state: the module-level `searching` flag,
the `searchPattern` strings forwarded to `scene.search`, and the id lists
passed to `isolateObjects`, each in call order. -/
structure HandlerState where
  searching : Bool
  searchCalls : List String
  isolateCalls : List (List Nat)
deriving DecidableEq, Repr

/-- How one handler run ends: a normal return, or an uncaught exception
propagating out of the async handler. -/
inductive HandlerOutcome
  | returned
  | threw
deriving DecidableEq, Repr

/-- One run of the search-form submit handler (`src/src/main.ts`, lines
42–65) executed without interleaving. A fresh `AbortController` is created
and is aborted iff `searching` was set (note it is the new controller that
is aborted, never a previous run's — see the `SearchWorld` model); then
`searching := true`; if `view.scene` is set the pattern is forwarded
verbatim to `scene.search` and the matches consumed: on completion
`isolateObjects` is called with the collected ids and `searching` cleared;
on a stream error nothing catches the exception, so no isolate happens and
`searching` stays set. -/
def runSubmit (scenePresent : Bool) (pattern : String) (stream : StreamBehavior)
    (s : HandlerState) : HandlerState × HandlerOutcome :=
  let s1 : HandlerState := { s with searching := true }
  if scenePresent then
    let s2 : HandlerState := { s1 with searchCalls := s1.searchCalls ++ [pattern] }
    match stream with
    | StreamBehavior.completes ids =>
        ({ s2 with isolateCalls := s2.isolateCalls ++ [ids], searching := false },
         HandlerOutcome.returned)
    | StreamBehavior.failsAfter _ =>
        (s2, HandlerOutcome.threw)
  else
    (s1, HandlerOutcome.returned)

/-- Claim C2, at its failing input: when the match stream fails after
yielding ids 1 and 2, the handler never calls `isolateObjects` (so the
highlight index is untouched, as the claim says) but the exception escapes
before `searching = false` runs, so the search-active flag stays set —
contradicting the claim's second half. -/
theorem search_failure_leaves_flag_set :
    ((runSubmit true ("door") (StreamBehavior.failsAfter [1, 2])
        ⟨false, [], []⟩).1).isolateCalls = []
    ∧ ((runSubmit true ("door") (StreamBehavior.failsAfter [1, 2])
        ⟨false, [], []⟩).1).searching = true
    ∧ (runSubmit true ("door") (StreamBehavior.failsAfter [1, 2])
        ⟨false, [], []⟩).2 = HandlerOutcome.threw :=
  ⟨rfl, rfl, rfl⟩

/-- Claim C8: every submitted query text — the empty string included — is
forwarded verbatim as the search pattern, whatever the prior state and
whatever the stream then does; there is no client-side filter or
short-circuit. -/
theorem pattern_forwarded_verbatim (pattern : String) (stream : StreamBehavior)
    (s : HandlerState) :
    ((runSubmit true pattern stream s).1).searchCalls =
      s.searchCalls ++ [pattern] := by
  cases stream <;> rfl

/-- Names for two submit-handler invocations: `A` the earlier one, `B` the
one submitted while `A` is still collecting matches. -/
inductive SessionId
  | A
  | B
deriving DecidableEq, Repr

/-- Program counter of one submit-handler coroutine, one atomic segment per
stretch of code between `await` suspension points. -/
inductive SessPhase
  | invoked
  | consuming (k : Nat)
  | finished
deriving DecidableEq, Repr

/-- One submit-handler invocation: its phase, whether its own fresh
`AbortController` has been aborted, and the ids collected so far. -/
structure Session where
  phase : SessPhase
  ctrlAborted : Bool
  collected : List Nat
deriving DecidableEq, Repr

/-- Shared state of the interleaved model: the module-level `searching`
flag, the two handler coroutines, and the id lists passed to
`isolateObjects` tagged by the session that passed them. -/
structure SearchWorld where
  searching : Bool
  sessA : Session
  sessB : Session
  isolateCalls : List (SessionId × List Nat)
deriving DecidableEq, Repr

def getSess (w : SearchWorld) : SessionId → Session
  | SessionId.A => w.sessA
  | SessionId.B => w.sessB

def setSess (w : SearchWorld) (s : SessionId) (v : Session) : SearchWorld :=
  match s with
  | SessionId.A => { w with sessA := v }
  | SessionId.B => { w with sessB := v }

/-- One atomic segment of the submit handler (`src/src/main.ts`, lines
42–65) for session `s`, in the single-threaded cooperative model of §5 of
the design; `stream s` is the list of match ids the scene search yields for
that session's query.

* `invoked` — the synchronous prologue: `const abortController = new
  AbortController()` (a fresh controller per invocation), then
  `if (searching) abortController.abort()` — the abort targets the
  invocation's OWN fresh controller — then `searching = true` and the
  `scene.search` call, up to the first suspension of the `for await` loop.
* `consuming k` — one step of the `for await` loop. If this session's own
  signal has been aborted the engine iterator rejects with the abort error;
  the handler has no try/catch, so the coroutine ends with no isolate call
  and `searching` untouched. Otherwise the next match, if any, is appended
  to `result`; when the iterator is exhausted, `isolateObjects(scene,
  result)` runs and `searching = false`.
* `finished` — the coroutine is gone; stepping it changes nothing. -/
def step (stream : SessionId → List Nat) (w : SearchWorld) (s : SessionId) :
    SearchWorld :=
  let sess := getSess w s
  match sess.phase with
  | SessPhase.invoked =>
      setSess { w with searching := true } s
        { phase := SessPhase.consuming 0, ctrlAborted := w.searching,
          collected := [] }
  | SessPhase.consuming k =>
      if sess.ctrlAborted then
        setSess w s { sess with phase := SessPhase.finished }
      else if h : k < (stream s).length then
        setSess w s
          { sess with
            phase := SessPhase.consuming (k + 1)
            collected := sess.collected ++ [(stream s).get ⟨k, h⟩] }
      else
        setSess
          { w with
            searching := false
            isolateCalls := w.isolateCalls ++ [(s, sess.collected)] } s
          { sess with phase := SessPhase.finished }
  | SessPhase.finished => w

/-- Run the machine over a schedule: the session whose segment runs at each
step, in order. Scheduling a session's `invoked` segment at position `t`
models its submit event being dispatched at that point. -/
def run (stream : SessionId → List Nat) (w : SearchWorld) (sched : List SessionId) :
    SearchWorld :=
  sched.foldl (step stream) w

/-- A not-yet-started handler invocation. -/
def sess0 : Session :=
  { phase := SessPhase.invoked, ctrlAborted := false, collected := [] }

/-- Idle initial state: no search active, both submissions pending. -/
def world0 : SearchWorld :=
  { searching := false, sessA := sess0, sessB := sess0, isolateCalls := [] }

/-- Scenario for claim C1: session A's query matches ids 10, 20, 30;
session B's matches id 7. -/
def streamC1 : SessionId → List Nat
  | SessionId.A => [10, 20, 30]
  | SessionId.B => [7]

/-- The schedule refuting claim C1: A's prologue, two of A's match steps,
then B is submitted (its prologue runs), then A resumes and completes, then
B's consuming step runs against its aborted signal. -/
def schedC1 : List SessionId :=
  [SessionId.A, SessionId.A, SessionId.A, SessionId.B,
   SessionId.A, SessionId.A, SessionId.B]

/-- Claim C1, at its failing input: when B is submitted while A has
collected [10, 20] of its three matches, the abort in B's prologue triggers
B's own fresh controller — A's token is untouched both at that instant and
at the end — and A then runs to completion, so A's collected ids do reach
`isolateObjects`; both conjuncts of the claim fail on the code. -/
theorem supersession_wrong_token_aborted :
    (run streamC1 world0 [SessionId.A, SessionId.A, SessionId.A]).sessA.collected
        = [10, 20]
    ∧ (run streamC1 world0
        [SessionId.A, SessionId.A, SessionId.A, SessionId.B]).sessA.ctrlAborted
        = false
    ∧ (run streamC1 world0
        [SessionId.A, SessionId.A, SessionId.A, SessionId.B]).sessB.ctrlAborted
        = true
    ∧ (run streamC1 world0 schedC1).sessA.ctrlAborted = false
    ∧ (run streamC1 world0 schedC1).isolateCalls = [(SessionId.A, [10, 20, 30])] := by
  decide

end Novorender
